import Mathlib

/-!
Shallow embedding of the talent-acquisition server (TypeScript, drizzle-orm over
PostgreSQL) and proofs about its handlers.

Tables are lists of rows; timestamps are `Nat` (epoch instants); every handler
takes the current time `now : Nat` explicitly (the TS code calls `new Date()`).
`serial` primary keys are modelled by `freshId`, which returns a value strictly
greater than every id already in the table.  A handler that can `throw` returns
`Except String α × DBState`; the state component is the store after the call
(on the error paths of these handlers no write precedes the throw, so the
original state is returned).
-/

namespace TalentAcq

inductive UserRole
  | candidate | requester | admin
deriving DecidableEq, Repr

inductive JobStatus
  | draft | pending_approval | approved | published | closed
deriving DecidableEq, Repr

inductive ApplicationStatus
  | pending | ai_processing | shortlisted | rejected | interview_scheduled
  | interviewed | offer_made | offer_accepted | offer_rejected | hired
deriving DecidableEq, Repr

inductive InterviewStatus
  | scheduled | completed | cancelled | rescheduled
deriving DecidableEq, Repr

inductive NotificationType
  | application_status | interview_invitation | job_approval | weekly_report
deriving DecidableEq, Repr

inductive FileType
  | pdf | docx | jpg | png
deriving DecidableEq, Repr

inductive ProcessingStatus
  | pending | processing | completed | failed
deriving DecidableEq, Repr

structure User where
  id : Nat
  email : String
  first_name : String
  last_name : String
  role : UserRole
  department : Option String
  phone : Option String
  created_at : Nat
  updated_at : Nat
deriving DecidableEq, Repr

structure Job where
  id : Nat
  title : String
  description : String
  requirements : String
  department : String
  location : Option String
  salary_range : Option String
  employment_type : String
  status : JobStatus
  created_by : Nat
  approved_by : Option Nat
  created_at : Nat
  updated_at : Nat
  published_at : Option Nat
  closed_at : Option Nat
deriving DecidableEq, Repr

structure CVFile where
  id : Nat
  candidate_id : Nat
  file_name : String
  file_type : FileType
  file_size : Nat
  file_path : String
  uploaded_at : Nat
deriving DecidableEq, Repr

/-- The `jsonb parsed_data` column: either the initial `{}` payload or the
fixed mock object fabricated by `simulateAIProcessing` (which embeds the CV
file's name and type and a processing timestamp). -/
inductive ParsedData
  | empty
  | mock (file_name : String) (file_type : FileType) (processed_at : Nat)
deriving DecidableEq, Repr

structure AIParsedData where
  id : Nat
  cv_file_id : Nat
  parsed_data : ParsedData
  processing_status : ProcessingStatus
  created_at : Nat
  updated_at : Nat
deriving DecidableEq, Repr

structure Application where
  id : Nat
  job_id : Nat
  candidate_id : Nat
  cv_file_id : Nat
  ai_parsed_data_id : Option Nat
  status : ApplicationStatus
  ai_match_score : Option Nat
  cover_letter : Option String
  notes : Option String
  created_at : Nat
  updated_at : Nat
deriving DecidableEq, Repr

structure Interview where
  id : Nat
  application_id : Nat
  interviewer_id : Nat
  scheduled_at : Nat
  duration_minutes : Nat
  location : Option String
  meeting_link : Option String
  status : InterviewStatus
  notes : Option String
  feedback : Option String
  created_at : Nat
  updated_at : Nat
deriving DecidableEq, Repr

structure Notification where
  id : Nat
  user_id : Nat
  type : NotificationType
  title : String
  message : String
  email_sent : Bool
  read_at : Option Nat
  created_at : Nat
deriving DecidableEq, Repr

/-- The `report_data` jsonb bundle computed by `generateWeeklyReport`. -/
structure ReportData where
  timeToFill : ℚ
  offerAcceptanceRate : ℚ
  averageMatchRate : ℚ
  totalApplications : Nat
  shortlistedApplications : Nat
  interviewsScheduled : Nat
  offersExtended : Nat
deriving DecidableEq, Repr

structure Report where
  id : Nat
  requester_id : Nat
  report_type : String
  report_data : ReportData
  file_path : Option String
  generated_at : Nat
  week_start : Nat
  week_end : Nat
deriving DecidableEq, Repr

structure DBState where
  users : List User
  jobs : List Job
  cv_files : List CVFile
  ai_parsed_data : List AIParsedData
  applications : List Application
  interviews : List Interview
  notifications : List Notification
  reports : List Report
deriving DecidableEq, Repr

/-- A fresh serial id: strictly greater than every id already present. -/
def freshId (ids : List Nat) : Nat :=
  ids.foldr max 0 + 1

/-- First row of `SELECT * FROM users WHERE id = i`. -/
def findUser (s : DBState) (i : Nat) : Option User :=
  (s.users.filter (fun u => u.id == i)).head?

/-- First row of `SELECT * FROM jobs WHERE id = i`. -/
def findJob (s : DBState) (i : Nat) : Option Job :=
  (s.jobs.filter (fun j => j.id == i)).head?

/-- First row of `SELECT * FROM cv_files WHERE id = i`. -/
def findCVFile (s : DBState) (i : Nat) : Option CVFile :=
  (s.cv_files.filter (fun c => c.id == i)).head?

/-- First row of `SELECT * FROM applications WHERE id = i`. -/
def findApplication (s : DBState) (i : Nat) : Option Application :=
  (s.applications.filter (fun a => a.id == i)).head?

/-- First row of `SELECT * FROM interviews WHERE id = i`. -/
def findInterview (s : DBState) (i : Nat) : Option Interview :=
  (s.interviews.filter (fun iv => iv.id == i)).head?

/-- First row of `SELECT * FROM notifications WHERE id = i`. -/
def findNotification (s : DBState) (i : Nat) : Option Notification :=
  (s.notifications.filter (fun n => n.id == i)).head?

/-! ### updateApplicationStatus (src/server/src/handlers/update_application_status.ts) -/

/-- Input of `updateApplicationStatus`.  `notes` is `Option (Option String)`:
the outer layer is presence of the key (`undefined` when absent — the handler
checks `input.notes !== undefined`), the inner layer is SQL `null` vs a string. -/
structure UpdateApplicationStatusInput where
  application_id : Nat
  status : ApplicationStatus
  notes : Option (Option String)
deriving DecidableEq, Repr

/-- The `SET` clause of `updateApplicationStatus`: always `status` and
`updated_at`; `notes` only when the key was present in the input. -/
def applyApplicationUpdate (input : UpdateApplicationStatusInput) (now : Nat)
    (a : Application) : Application :=
  { a with
      status := input.status
      updated_at := now
      notes := match input.notes with
               | none => a.notes
               | some v => v }

/-- `updateApplicationStatus`: verify the application exists (else throw,
nothing written), then `UPDATE applications SET status, updated_at[, notes]
WHERE id = input.application_id RETURNING *` and return the first row. -/
def updateApplicationStatus (input : UpdateApplicationStatusInput) (s : DBState)
    (now : Nat) : Except String Application × DBState :=
  match findApplication s input.application_id with
  | none =>
      (Except.error ("Application with ID " ++ toString input.application_id ++ " not found"), s)
  | some a0 =>
      let s1 : DBState :=
        { s with applications :=
            s.applications.map (fun a =>
              if a.id == input.application_id then applyApplicationUpdate input now a else a) }
      (Except.ok (applyApplicationUpdate input now a0), s1)

/-! ### updateInterview (src/unnamed/part_011, lines 6–54) -/

/-- Input of `updateInterview`: `status` is optional (never `null` per the zod
schema), `notes` and `feedback` are optional and nullable. -/
structure UpdateInterviewInput where
  interview_id : Nat
  status : Option InterviewStatus
  notes : Option (Option String)
  feedback : Option (Option String)
deriving DecidableEq, Repr

/-- The `SET` clause of `updateInterview`: always `updated_at`; `status`,
`notes` and `feedback` only when the corresponding key was present. -/
def applyInterviewUpdate (input : UpdateInterviewInput) (now : Nat)
    (iv : Interview) : Interview :=
  { iv with
      updated_at := now
      status := match input.status with
                | none => iv.status
                | some st => st
      notes := match input.notes with
               | none => iv.notes
               | some v => v
      feedback := match input.feedback with
                  | none => iv.feedback
                  | some v => v }

/-- `updateInterview`: `UPDATE interviews SET updated_at[, status][, notes]
[, feedback] WHERE id = input.interview_id RETURNING *`; throw if no row
matched (nothing was written in that case); if the supplied status is
`completed`, additionally force the parent application's status to
`interviewed` and bump its `updated_at`. -/
def updateInterview (input : UpdateInterviewInput) (s : DBState) (now : Nat) :
    Except String Interview × DBState :=
  match findInterview s input.interview_id with
  | none =>
      (Except.error ("Interview with id " ++ toString input.interview_id ++ " not found"), s)
  | some iv0 =>
      let r := applyInterviewUpdate input now iv0
      let s1 : DBState :=
        { s with interviews :=
            s.interviews.map (fun iv =>
              if iv.id == input.interview_id then applyInterviewUpdate input now iv else iv) }
      if input.status = some InterviewStatus.completed then
        let s2 : DBState :=
          { s1 with applications :=
              s1.applications.map (fun a =>
                if a.id == r.application_id then
                  { a with status := ApplicationStatus.interviewed, updated_at := now }
                else a) }
        (Except.ok r, s2)
      else
        (Except.ok r, s1)

/-! ### updateJobStatus (src/unnamed/part_016, lines 6–51) -/

/-- Input of `updateJobStatus`.  `approved_by` is `number | null` in the zod
schema; `none` models `null`. -/
structure UpdateJobStatusInput where
  job_id : Nat
  status : JobStatus
  approved_by : Option Nat
deriving DecidableEq, Repr

/-- JavaScript truthiness of the `approved_by` value as used by the guard
`input.status === 'approved' && input.approved_by`: `null` and `0` are falsy. -/
def truthyId : Option Nat → Bool
  | some a => a != 0
  | none => false

/-- The update values built by `updateJobStatus` for a given target status:
always `status` and `updated_at`; `approved_by` only when the target is
`approved` and the supplied id is truthy; `published_at := now` when the
target is `published`; `closed_at := now` when the target is `closed`. -/
def applyJobStatusUpdate (input : UpdateJobStatusInput) (now : Nat) (j : Job) : Job :=
  let v1 : Job := { j with status := input.status, updated_at := now }
  let v2 : Job :=
    if input.status = JobStatus.approved ∧ truthyId input.approved_by then
      { v1 with approved_by := input.approved_by }
    else v1
  let v3 : Job :=
    if input.status = JobStatus.published then { v2 with published_at := some now } else v2
  let v4 : Job :=
    if input.status = JobStatus.closed then { v3 with closed_at := some now } else v3
  v4

/-- `updateJobStatus`: verify the job exists (else throw, nothing written),
then apply `applyJobStatusUpdate` to the matching row and return it. -/
def updateJobStatus (input : UpdateJobStatusInput) (s : DBState) (now : Nat) :
    Except String Job × DBState :=
  match findJob s input.job_id with
  | none =>
      (Except.error ("Job with id " ++ toString input.job_id ++ " not found"), s)
  | some j0 =>
      let s1 : DBState :=
        { s with jobs :=
            s.jobs.map (fun j =>
              if j.id == input.job_id then applyJobStatusUpdate input now j else j) }
      (Except.ok (applyJobStatusUpdate input now j0), s1)

/-! ### createApplication (src/server/src/handlers/dashboard_analytics.ts, lines 81–137) -/

structure CreateApplicationInput where
  job_id : Nat
  candidate_id : Nat
  cv_file_id : Nat
  cover_letter : Option String
deriving DecidableEq, Repr

/-- The application row inserted by `createApplication` on its success path:
server-assigned id, status `pending`, null score, null notes, null
`ai_parsed_data_id`. -/
def newApplication (input : CreateApplicationInput) (s : DBState) (now : Nat) : Application :=
  { id := freshId (s.applications.map (fun a => a.id))
    job_id := input.job_id
    candidate_id := input.candidate_id
    cv_file_id := input.cv_file_id
    ai_parsed_data_id := none
    status := ApplicationStatus.pending
    ai_match_score := none
    cover_letter := input.cover_letter
    notes := none
    created_at := now
    updated_at := now }

/-- `createApplication`: validate the job, the candidate user and the CV file
exist and that the CV file belongs to the supplied candidate (the user's role
is never inspected), then insert an application with status `pending`, null
`ai_match_score`, null `notes` and null `ai_parsed_data_id`. -/
def createApplication (input : CreateApplicationInput) (s : DBState) (now : Nat) :
    Except String Application × DBState :=
  match findJob s input.job_id with
  | none => (Except.error "Job not found", s)
  | some _ =>
    match findUser s input.candidate_id with
    | none => (Except.error "Candidate not found", s)
    | some _ =>
      match findCVFile s input.cv_file_id with
      | none => (Except.error "CV file not found", s)
      | some cv =>
        if cv.candidate_id ≠ input.candidate_id then
          (Except.error "CV file does not belong to the specified candidate", s)
        else
          (Except.ok (newApplication input s now),
           { s with applications := s.applications ++ [newApplication input s now] })

/-! ### processCVWithAI (src/unnamed/part_011, lines 59–118) -/

/-- The initial `ai_parsed_data` row inserted by `processCVWithAI`: empty
payload, status `processing`. -/
def procInitialRow (s : DBState) (fid now : Nat) : AIParsedData :=
  { id := freshId (s.ai_parsed_data.map (fun p => p.id))
    cv_file_id := fid
    parsed_data := ParsedData.empty
    processing_status := ProcessingStatus.processing
    created_at := now
    updated_at := now }

/-- The row after the mock AI step of `processCVWithAI`: the mock payload,
status `completed`. -/
def procCompletedRow (s : DBState) (fid now : Nat) (cv : CVFile) : AIParsedData :=
  { procInitialRow s fid now with
      parsed_data := ParsedData.mock cv.file_name cv.file_type now
      processing_status := ProcessingStatus.completed
      updated_at := now }

/-- `processCVWithAI`: verify the CV file exists (else throw); if an
`ai_parsed_data` row already exists for this `cv_file_id`, return it
unchanged; otherwise insert an initial row (`{}`, `processing`), run the mock
AI step, and update that row to the mock payload with status `completed`. -/
def processCVWithAI (cvFileId : Nat) (s : DBState) (now : Nat) :
    Except String AIParsedData × DBState :=
  match findCVFile s cvFileId with
  | none =>
      (Except.error ("CV file with ID " ++ toString cvFileId ++ " not found"), s)
  | some cv =>
    match (s.ai_parsed_data.filter (fun p => p.cv_file_id == cvFileId)).head? with
    | some existing => (Except.ok existing, s)
    | none =>
      let rid := freshId (s.ai_parsed_data.map (fun p => p.id))
      let s2 : DBState :=
        { s with ai_parsed_data :=
            (s.ai_parsed_data ++ [procInitialRow s cvFileId now]).map (fun p =>
              if p.id == rid then procCompletedRow s cvFileId now cv else p) }
      (Except.ok (procCompletedRow s cvFileId now cv), s2)

/-! ### sendEmailNotification (src/unnamed/part_014, lines 37–73) -/

/-- `sendEmailNotification`: `SELECT notification, user FROM notifications
INNER JOIN users ON notifications.user_id = users.id WHERE notifications.id =
nid`; throw not-found if the join is empty; if the notification's
`email_sent` flag is already set, return `true` without writing; otherwise
set `email_sent := true` and return whether any row was updated. -/
def sendEmailNotification (nid : Nat) (s : DBState) :
    Except String Bool × DBState :=
  let joined : List (Notification × User) :=
    (s.notifications.filter (fun n => n.id == nid)).flatMap
      (fun n => (s.users.filter (fun u => u.id == n.user_id)).map (fun u => (n, u)))
  match joined.head? with
  | none =>
      (Except.error ("Notification with ID " ++ toString nid ++ " not found"), s)
  | some (n, _) =>
    if n.email_sent then
      (Except.ok true, s)
    else
      let s1 : DBState :=
        { s with notifications :=
            s.notifications.map (fun m => if m.id == nid then { m with email_sent := true } else m) }
      (Except.ok ((s.notifications.filter (fun m => m.id == nid)).length != 0), s1)

/-! ### getApplicationsByJob (src/server/src/handlers/get_applications.ts, lines 22–51) -/

/-- The final JavaScript comparator of `getApplicationsByJob`, as a "comes no
later than" relation (`comparator a b ≤ 0`): applications with a non-null
`ai_match_score` precede null ones; among non-null scores, higher first; ties
(and null-against-null) by `created_at` descending. -/
def appLe (a b : Application) : Bool :=
  match a.ai_match_score, b.ai_match_score with
  | some x, some y => if x = y then decide (b.created_at ≤ a.created_at) else decide (y < x)
  | some _, none => true
  | none, some _ => false
  | none, none => decide (b.created_at ≤ a.created_at)

/-- `getApplicationsByJob`: select the applications of the job and sort them
with the handler's comparator.  (The SQL `ORDER BY` is immediately re-sorted
in JavaScript; the final order is fully determined by the comparator, so the
pre-ordering is absorbed into the single sort.) -/
def getApplicationsByJob (job_id : Nat) (s : DBState) : List Application :=
  (s.applications.filter (fun a => a.job_id == job_id)).mergeSort appLe

/-! ### generateWeeklyReport (src/unnamed/part_015, lines 61–222) -/

/-- JavaScript `Math.round`: round half toward positive infinity. -/
def jsRound (q : ℚ) : ℤ :=
  ⌊q + 1 / 2⌋

/-- `Math.round(x * 100) / 100` — round to two decimal places. -/
def round2 (q : ℚ) : ℚ :=
  (jsRound (q * 100) : ℚ) / 100

/-- `applications INNER JOIN jobs ON applications.job_id = jobs.id`. -/
def appJobPairs (s : DBState) : List (Application × Job) :=
  s.applications.flatMap
    (fun a => (s.jobs.filter (fun j => j.id == a.job_id)).map (fun j => (a, j)))

/-- `interviews INNER JOIN applications ON interviews.application_id =
applications.id INNER JOIN jobs ON applications.job_id = jobs.id`. -/
def intAppJobTriples (s : DBState) : List (Interview × Application × Job) :=
  s.interviews.flatMap
    (fun iv => (s.applications.filter (fun a => a.id == iv.application_id)).flatMap
      (fun a => (s.jobs.filter (fun j => j.id == a.job_id)).map (fun j => (iv, a, j))))

/-- The filter common to the report's application metrics: the joined job was
created by the requester, and `weekStart ≤ created_at ≤ weekEnd` (the handler
uses `gte` and `lte`, i.e. both bounds inclusive). -/
def inReportRange (rid ws we : Nat) (p : Application × Job) : Bool :=
  p.2.created_by == rid && decide (ws ≤ p.1.created_at) && decide (p.1.created_at ≤ we)

/-- The `report_data` bundle computed by `generateWeeklyReport`. -/
def weeklyReportData (rid ws we : Nat) (s : DBState) : ReportData :=
  let pairs := appJobPairs s
  let totalApplications :=
    (pairs.filter (inReportRange rid ws we)).length
  let shortlistedApplications :=
    (pairs.filter (fun p =>
      inReportRange rid ws we p && decide (p.1.status = ApplicationStatus.shortlisted))).length
  let interviewsScheduled :=
    ((intAppJobTriples s).filter (fun t =>
      t.2.2.created_by == rid && decide (ws ≤ t.1.created_at) && decide (t.1.created_at ≤ we))).length
  let offersExtended :=
    (pairs.filter (fun p =>
      p.2.created_by == rid && decide (p.1.status = ApplicationStatus.offer_made) &&
        decide (ws ≤ p.1.updated_at) && decide (p.1.updated_at ≤ we))).length
  let acceptedPairs :=
    pairs.filter (fun p =>
      p.2.created_by == rid && decide (p.1.status = ApplicationStatus.offer_accepted) &&
        decide (ws ≤ p.1.updated_at) && decide (p.1.updated_at ≤ we))
  let acceptedOffers := acceptedPairs.length
  let matchScores : List Nat :=
    (pairs.filter (fun p =>
      inReportRange rid ws we p && p.1.ai_match_score.isSome)).filterMap
      (fun p => p.1.ai_match_score)
  let averageMatchRate : ℚ :=
    if matchScores.length = 0 then 0 else (matchScores.sum : ℚ) / matchScores.length
  let offerAcceptanceRate : ℚ :=
    if 0 < offersExtended then (acceptedOffers : ℚ) / offersExtended * 100 else 0
  let fillDaysSum : ℚ :=
    (acceptedPairs.map (fun p => ((p.1.updated_at : ℚ) - (p.2.created_at : ℚ)))).sum
  let timeToFill : ℚ :=
    if acceptedOffers = 0 then 0 else fillDaysSum / acceptedOffers / 86400
  { timeToFill := round2 timeToFill
    offerAcceptanceRate := round2 offerAcceptanceRate
    averageMatchRate := round2 averageMatchRate
    totalApplications := totalApplications
    shortlistedApplications := shortlistedApplications
    interviewsScheduled := interviewsScheduled
    offersExtended := offersExtended }

/-- `generateWeeklyReport`: compute the metrics bundle over the requester's
jobs, insert a new `reports` row (every call — no deduplication) and return
it.  The handler performs no validation and never throws. -/
def generateWeeklyReport (requesterId weekStart weekEnd : Nat) (s : DBState)
    (now : Nat) : Report × DBState :=
  let rd := weeklyReportData requesterId weekStart weekEnd s
  let report : Report :=
    { id := freshId (s.reports.map (fun r => r.id))
      requester_id := requesterId
      report_type := "weekly"
      report_data := rd
      file_path := none
      generated_at := now
      week_start := weekStart
      week_end := weekEnd }
  (report, { s with reports := s.reports ++ [report] })

/-- Modelled from the spec (for the refinement comparison in C8 only): the
spec's half-open window — the count of applications to the requester's jobs
with `week_start ≤ created_at < week_end`, `week_end` excluded. -/
def specTotalApplicationsHalfOpen (s : DBState) (rid ws we : Nat) : Nat :=
  ((appJobPairs s).filter (fun p =>
    p.2.created_by == rid && decide (ws ≤ p.1.created_at) && decide (p.1.created_at < we))).length

/-! ### getRequesterDashboard (src/unnamed/part_008, lines 416–547) -/

/-- The non-null `ai_match_score` values of the applications to the
requester's jobs (the rows averaged at lines 470–481 of part_008). -/
def requesterMatchScores (s : DBState) (rid : Nat) : List Nat :=
  ((appJobPairs s).filter (fun p =>
    p.2.created_by == rid && p.1.ai_match_score.isSome)).filterMap
    (fun p => p.1.ai_match_score)

/-- The `averageMatchScore` field of `getRequesterDashboard`:
`Math.round(Number(avg) || 0)` where `avg` is the SQL average of the non-null
scores (`null`, hence `0`, when there are none). -/
def requesterAverageMatchScore (s : DBState) (rid : Nat) : ℤ :=
  let scores := requesterMatchScores s rid
  jsRound (if scores.length = 0 then 0 else (scores.sum : ℚ) / scores.length)

/-! ### scheduleInterview -/

structure ScheduleInterviewInput where
  application_id : Nat
  interviewer_id : Nat
  scheduled_at : Nat
  duration_minutes : Nat
  location : Option String
  meeting_link : Option String
deriving DecidableEq, Repr

/-- Modelled from the spec (step c of §4.4): the interview row inserted by
`scheduleInterview` — the supplied fields, status `scheduled`, null notes
and feedback. -/
def schedInterviewRow (input : ScheduleInterviewInput) (s : DBState) (now : Nat) :
    Interview :=
  { id := freshId (s.interviews.map (fun i => i.id))
    application_id := input.application_id
    interviewer_id := input.interviewer_id
    scheduled_at := input.scheduled_at
    duration_minutes := input.duration_minutes
    location := input.location
    meeting_link := input.meeting_link
    status := InterviewStatus.scheduled
    notes := none
    feedback := none
    created_at := now
    updated_at := now }

/-- Modelled from the spec (step e of §4.4): the notification emitted to the
application's candidate — type `interview_invitation`, title "Interview
Scheduled", `email_sent = false`. -/
def schedCandNotif (s : DBState) (now : Nat) (app : Application) : Notification :=
  { id := freshId (s.notifications.map (fun n => n.id))
    user_id := app.candidate_id
    type := NotificationType.interview_invitation
    title := "Interview Scheduled"
    message := "Your interview has been scheduled."
    email_sent := false
    read_at := none
    created_at := now }

/-- Modelled from the spec (step e of §4.4): the notification emitted to the
interviewer — type `interview_invitation`, title "Interview Assignment",
`email_sent = false`. -/
def schedIntNotif (input : ScheduleInterviewInput) (s : DBState) (now : Nat)
    (app : Application) : Notification :=
  { id := freshId ((s.notifications ++ [schedCandNotif s now app]).map (fun n => n.id))
    user_id := input.interviewer_id
    type := NotificationType.interview_invitation
    title := "Interview Assignment"
    message := "You have been assigned to conduct an interview."
    email_sent := false
    read_at := none
    created_at := now }

/-- Modelled from the spec: the `scheduleInterview` handler body is missing
from the repository (src/server/src/handlers/schedule_interview.ts is a
placeholder; only its tests in src/unnamed/part_003 exercise the behavior).
Per spec §4.4, a single transactional unit: (a) validate the application
exists, (b) validate the interviewer (any user) exists, (c) insert an
interview row with status `scheduled`, (d) set the parent application's
status to `interview_scheduled` and bump its `updated_at`, (e) emit one
notification to the application's candidate (type `interview_invitation`,
title "Interview Scheduled") and one to the interviewer (same type, title
"Interview Assignment"), both with `email_sent = false`.  On a missing id a
not-found error naming it is raised and no partial state is persisted. -/
def scheduleInterview (input : ScheduleInterviewInput) (s : DBState) (now : Nat) :
    Except String Interview × DBState :=
  match findApplication s input.application_id with
  | none =>
      (Except.error ("Application with ID " ++ toString input.application_id ++ " not found"), s)
  | some app =>
    match findUser s input.interviewer_id with
    | none =>
        (Except.error ("Interviewer with ID " ++ toString input.interviewer_id ++ " not found"), s)
    | some _ =>
      let s1 : DBState :=
        { s with interviews := s.interviews ++ [schedInterviewRow input s now] }
      let s2 : DBState :=
        { s1 with applications :=
            s1.applications.map (fun a =>
              if a.id == input.application_id then
                { a with status := ApplicationStatus.interview_scheduled, updated_at := now }
              else a) }
      let s3 : DBState :=
        { s2 with notifications := s2.notifications ++ [schedCandNotif s now app] }
      let s4 : DBState :=
        { s3 with notifications := s3.notifications ++ [schedIntNotif input s now app] }
      (Except.ok (schedInterviewRow input s now), s4)

/-! ### Concrete rows and states used by witnesses and counterexamples -/

/-- An empty store. -/
def emptyDB : DBState :=
  { users := [], jobs := [], cv_files := [], ai_parsed_data := [],
    applications := [], interviews := [], notifications := [], reports := [] }

/-- A minimal user row. -/
def mkUser (i : Nat) (r : UserRole) : User :=
  { id := i, email := "user" ++ toString i ++ "@example.com", first_name := "F",
    last_name := "L", role := r, department := none, phone := none,
    created_at := 0, updated_at := 0 }

/-- A minimal job row (status `draft`, no derived timestamps). -/
def mkJob (i creator : Nat) : Job :=
  { id := i, title := "T", description := "D", requirements := "R",
    department := "E", location := none, salary_range := none,
    employment_type := "full-time", status := JobStatus.draft,
    created_by := creator, approved_by := none, created_at := 0,
    updated_at := 0, published_at := none, closed_at := none }

/-- A minimal CV-file row. -/
def mkCV (i cand : Nat) : CVFile :=
  { id := i, candidate_id := cand, file_name := "cv.pdf",
    file_type := FileType.pdf, file_size := 1024, file_path := "/up/cv.pdf",
    uploaded_at := 0 }

/-- A minimal application row (status `pending`, null score and notes). -/
def mkApp (i jid cand cvid : Nat) : Application :=
  { id := i, job_id := jid, candidate_id := cand, cv_file_id := cvid,
    ai_parsed_data_id := none, status := ApplicationStatus.pending,
    ai_match_score := none, cover_letter := none, notes := none,
    created_at := 0, updated_at := 0 }

/-- A minimal interview row (status `scheduled`). -/
def mkInterview (i aid ivid : Nat) : Interview :=
  { id := i, application_id := aid, interviewer_id := ivid, scheduled_at := 100,
    duration_minutes := 60, location := none, meeting_link := none,
    status := InterviewStatus.scheduled, notes := none, feedback := none,
    created_at := 0, updated_at := 0 }

/-- A minimal notification row (`email_sent = false`, unread). -/
def mkNotif (i uid : Nat) : Notification :=
  { id := i, user_id := uid, type := NotificationType.application_status,
    title := "t", message := "m", email_sent := false, read_at := none,
    created_at := 0 }

/-- C1 witness state: application 10 (by candidate 3) and interviewer 4. -/
def cDB1 : DBState :=
  { emptyDB with
      users := [mkUser 3 UserRole.candidate, mkUser 4 UserRole.admin]
      applications := [mkApp 10 1 3 2] }

def cIn1 : ScheduleInterviewInput :=
  { application_id := 10, interviewer_id := 4, scheduled_at := 500,
    duration_minutes := 60, location := some "Room A", meeting_link := none }

/-- C2 witness state: interview 1 over application 10. -/
def cDB2 : DBState :=
  { emptyDB with
      applications := [{ mkApp 10 1 3 2 with status := ApplicationStatus.interview_scheduled }]
      interviews := [mkInterview 1 10 4] }

def cIn2 : UpdateInterviewInput :=
  { interview_id := 1, status := some InterviewStatus.completed,
    notes := none, feedback := none }

/-- C3 state: a single job, id 1. -/
def cDB3 : DBState :=
  { emptyDB with jobs := [{ mkJob 1 2 with status := JobStatus.pending_approval }] }

/-- C3 counterexample input: target `approved` with approver id `0` supplied. -/
def cIn3 : UpdateJobStatusInput :=
  { job_id := 1, status := JobStatus.approved, approved_by := some 0 }

/-- C3 witness input: target `approved` with (nonzero) approver id 2. -/
def cIn3w : UpdateJobStatusInput :=
  { job_id := 1, status := JobStatus.approved, approved_by := some 2 }

/-- C4 witness state: a single application, id 7, with prior notes. -/
def cDB4 : DBState :=
  { emptyDB with applications := [{ mkApp 7 1 3 2 with notes := some "old" }] }

def cIn4 : UpdateApplicationStatusInput :=
  { application_id := 7, status := ApplicationStatus.shortlisted, notes := none }

/-- C5 witness state: a single CV file, id 1, and no parsed data. -/
def cDB5 : DBState :=
  { emptyDB with cv_files := [mkCV 1 3] }

/-- C6 witness state: user 3 and an unsent notification, id 6, for user 3. -/
def cDB6 : DBState :=
  { emptyDB with users := [mkUser 3 UserRole.candidate]
                 notifications := [mkNotif 6 3] }

/-- C8 state: requester 1's job 1 and one application whose `created_at`
equals the report window's `week_end` (700). -/
def cDB8 : DBState :=
  { emptyDB with
      jobs := [mkJob 1 1]
      applications := [{ mkApp 5 1 3 2 with created_at := 700 }] }

/-- C9 witness state: requester 9's job 1 with two applications scored 85
and 92. -/
def cDB9 : DBState :=
  { emptyDB with
      jobs := [mkJob 1 9]
      applications := [{ mkApp 5 1 3 2 with ai_match_score := some 85 },
                       { mkApp 6 1 4 2 with ai_match_score := some 92 }] }

/-- C10 witness state: job 1, a user with role `requester` (id 4) owning CV
file 2. -/
def cDB10 : DBState :=
  { emptyDB with
      users := [mkUser 4 UserRole.requester]
      jobs := [mkJob 1 4]
      cv_files := [mkCV 2 4] }

def cIn10 : CreateApplicationInput :=
  { job_id := 1, candidate_id := 4, cv_file_id := 2, cover_letter := none }

/-! ## Helper lemmas -/

theorem le_foldr_max : ∀ {ids : List Nat} {x : Nat}, x ∈ ids → x ≤ ids.foldr max 0
  | [], _, h => by cases h
  | y :: t, x, h => by
      rcases List.mem_cons.mp h with rfl | h'
      · exact le_max_left _ _
      · exact (le_foldr_max h').trans (le_max_right _ _)

theorem mem_lt_freshId {ids : List Nat} {x : Nat} (h : x ∈ ids) : x < freshId ids := by
  have := le_foldr_max h
  unfold freshId
  omega

theorem filter_map_updateById {α : Type} (l : List α) (key : α → Nat) (i : Nat)
    (f : α → α) (hf : ∀ a, key (f a) = key a) :
    (l.map (fun a => if key a == i then f a else a)).filter (fun a => key a == i)
      = (l.filter (fun a => key a == i)).map f := by
  rw [List.filter_map]
  have hcomp : ((fun a : α => key a == i) ∘ fun a => if key a == i then f a else a)
      = fun a : α => key a == i := by
    funext a
    by_cases h : key a = i
    · simp [h, hf]
    · simp [h]
  rw [hcomp]
  exact List.map_congr_left (fun a ha => by
    have : (key a == i) = true := (List.mem_filter.mp ha).2
    simp [this])

theorem head?_map' {α β : Type} (f : α → β) (l : List α) :
    (l.map f).head? = l.head?.map f := by
  cases l <;> rfl

theorem findApplication_update (s : DBState) (i : Nat) (f : Application → Application)
    (hf : ∀ a, (f a).id = a.id) :
    findApplication
        { s with applications := s.applications.map (fun a => if a.id == i then f a else a) } i
      = (findApplication s i).map f := by
  unfold findApplication
  rw [filter_map_updateById s.applications (fun x : Application => x.id) i f hf, head?_map']

theorem findApplication_update' (s : DBState) (base : List Application) (i : Nat)
    (f : Application → Application) (hf : ∀ a, (f a).id = a.id)
    (h : s.applications = base.map (fun a => if a.id == i then f a else a)) :
    findApplication s i = ((base.filter (fun a => a.id == i)).head?).map f := by
  unfold findApplication
  rw [h, filter_map_updateById base (fun x : Application => x.id) i f hf, head?_map']

/-! ## C4 — updateApplicationStatus -/

/-- C4: for every call to `updateApplicationStatus` on an existing
application, the status field is set to the supplied value and `updated_at`
is bumped to the call time; `notes = some none` (explicit null) clears the
stored notes, `notes = none` (key omitted) keeps the prior value, and
`notes = some (some v)` replaces them with `v`; when the application id does
not exist the call fails with the not-found error and the store is returned
unchanged. -/
theorem claim4_updateApplicationStatus (s : DBState)
    (input : UpdateApplicationStatusInput) (now : Nat) :
    (∀ a0, findApplication s input.application_id = some a0 →
        (updateApplicationStatus input s now).fst
            = Except.ok (applyApplicationUpdate input now a0) ∧
        findApplication (updateApplicationStatus input s now).snd input.application_id
            = some (applyApplicationUpdate input now a0) ∧
        (applyApplicationUpdate input now a0).status = input.status ∧
        (applyApplicationUpdate input now a0).updated_at = now ∧
        (applyApplicationUpdate input now a0).notes
            = (match input.notes with
               | none => a0.notes
               | some v => v)) ∧
    (findApplication s input.application_id = none →
        updateApplicationStatus input s now
            = (Except.error ("Application with ID " ++ toString input.application_id ++ " not found"),
               s)) := by
  constructor
  · intro a0 h
    refine ⟨?_, ?_, rfl, rfl, rfl⟩
    · unfold updateApplicationStatus
      rw [h]
    · unfold updateApplicationStatus
      rw [h]
      show findApplication
          { s with applications :=
              s.applications.map (fun a =>
                if a.id == input.application_id then applyApplicationUpdate input now a else a) }
          input.application_id
        = some (applyApplicationUpdate input now a0)
      rw [findApplication_update s input.application_id (applyApplicationUpdate input now)
        (fun a => rfl), h]
      rfl
  · intro h
    unfold updateApplicationStatus
    rw [h]

/-- C4 witness: on the concrete store `cDB4` (application 7 with prior notes
"old"), updating to `shortlisted` with the `notes` key omitted keeps the
stored notes. -/
theorem claim4_witness :
    (updateApplicationStatus cIn4 cDB4 5).fst
        = Except.ok (applyApplicationUpdate cIn4 5 { mkApp 7 1 3 2 with notes := some "old" }) ∧
    (applyApplicationUpdate cIn4 5 { mkApp 7 1 3 2 with notes := some "old" }).notes = some "old" ∧
    (applyApplicationUpdate cIn4 5 { mkApp 7 1 3 2 with notes := some "old" }).status
        = ApplicationStatus.shortlisted :=
  ⟨((claim4_updateApplicationStatus cDB4 cIn4 5).1
      { mkApp 7 1 3 2 with notes := some "old" } rfl).1, rfl, rfl⟩

/-! ## C2 — updateInterview cascade -/

/-- C2: for every call to `updateInterview` on an existing interview, the
call succeeds with the updated row; if the supplied status is `completed`
the parent application's status is set to `interviewed` and its `updated_at`
bumped to the call time; for any other supplied status value and when the
status key is omitted, the applications table is left completely unchanged. -/
theorem claim2_updateInterview_cascade (s : DBState) (input : UpdateInterviewInput)
    (now : Nat) (iv0 : Interview) (h : findInterview s input.interview_id = some iv0) :
    (updateInterview input s now).fst = Except.ok (applyInterviewUpdate input now iv0) ∧
    (input.status = some InterviewStatus.completed →
        findApplication (updateInterview input s now).snd iv0.application_id
          = (findApplication s iv0.application_id).map
              (fun a => { a with status := ApplicationStatus.interviewed, updated_at := now })) ∧
    (input.status ≠ some InterviewStatus.completed →
        (updateInterview input s now).snd.applications = s.applications) := by
  by_cases hst : input.status = some InterviewStatus.completed
  · refine ⟨?_, fun _ => ?_, fun hne => absurd hst hne⟩
    · simp only [updateInterview, h, hst, reduceIte]
    · simp only [updateInterview, h, hst, reduceIte]
      exact findApplication_update' _ s.applications iv0.application_id
        (fun a => { a with status := ApplicationStatus.interviewed, updated_at := now })
        (fun a => rfl) rfl
  · refine ⟨?_, fun hc => absurd hc hst, fun _ => ?_⟩
    · simp only [updateInterview, h, hst, reduceIte]
    · simp only [updateInterview, h, hst, reduceIte]

/-- C2 witness: completing interview 1 (over application 10) in the concrete
store `cDB2` sets application 10's status to `interviewed` and its
`updated_at` to the call time 5. -/
theorem claim2_witness :
    findApplication (updateInterview cIn2 cDB2 5).snd 10
      = some { mkApp 10 1 3 2 with
                 status := ApplicationStatus.interviewed, updated_at := 5 } := by
  have h2 := (claim2_updateInterview_cascade cDB2 cIn2 5 (mkInterview 1 10 4) rfl).2.1 rfl
  rw [show (mkInterview 1 10 4).application_id = 10 from rfl] at h2
  rw [h2]
  rfl

/-! ## C3 — updateJobStatus -/

theorem findJob_update' (s : DBState) (base : List Job) (i : Nat)
    (f : Job → Job) (hf : ∀ j, (f j).id = j.id)
    (h : s.jobs = base.map (fun j => if j.id == i then f j else j)) :
    findJob s i = ((base.filter (fun j => j.id == i)).head?).map f := by
  unfold findJob
  rw [h, filter_map_updateById base (fun x : Job => x.id) i f hf, head?_map']

theorem applyJobStatusUpdate_id (input : UpdateJobStatusInput) (now : Nat) (j : Job) :
    (applyJobStatusUpdate input now j).id = j.id := by
  unfold applyJobStatusUpdate
  split_ifs <;> rfl

/-- C3 counterexample: the claim says that target `approved` with an approver
id supplied sets `approved_by` to that id; but the handler guards with the
JavaScript truthiness of `input.approved_by`, so the (falsy) supplied id `0`
is silently ignored: the update succeeds and `approved_by` stays `none`. -/
theorem claim3_counterexample :
    cIn3.status = JobStatus.approved ∧ cIn3.approved_by = some 0 ∧
    (updateJobStatus cIn3 cDB3 5).fst
      = Except.ok
          (applyJobStatusUpdate cIn3 5 { mkJob 1 2 with status := JobStatus.pending_approval }) ∧
    (applyJobStatusUpdate cIn3 5
        { mkJob 1 2 with status := JobStatus.pending_approval }).approved_by = none := by
  refine ⟨rfl, rfl, ?_, ?_⟩ <;> rfl

/-- C3 (amended): for every call to `updateJobStatus` on an existing job, the
side effects depend only on the target status: target `published` sets
`published_at` to the call time, target `closed` sets `closed_at` to the call
time, any other target leaves these fields at their prior values; target
`approved` with a truthy (nonzero, non-null) approver id sets `approved_by`
to that id; `updated_at` is always bumped to the call time. -/
theorem claim3_updateJobStatus_amended (s : DBState) (input : UpdateJobStatusInput)
    (now : Nat) (j0 : Job) (h : findJob s input.job_id = some j0) :
    (updateJobStatus input s now).fst = Except.ok (applyJobStatusUpdate input now j0) ∧
    findJob (updateJobStatus input s now).snd input.job_id
      = some (applyJobStatusUpdate input now j0) ∧
    (applyJobStatusUpdate input now j0).status = input.status ∧
    (applyJobStatusUpdate input now j0).updated_at = now ∧
    (input.status = JobStatus.published →
        (applyJobStatusUpdate input now j0).published_at = some now) ∧
    (input.status ≠ JobStatus.published →
        (applyJobStatusUpdate input now j0).published_at = j0.published_at) ∧
    (input.status = JobStatus.closed →
        (applyJobStatusUpdate input now j0).closed_at = some now) ∧
    (input.status ≠ JobStatus.closed →
        (applyJobStatusUpdate input now j0).closed_at = j0.closed_at) ∧
    (∀ a, input.status = JobStatus.approved → input.approved_by = some a → a ≠ 0 →
        (applyJobStatusUpdate input now j0).approved_by = some a) := by
  refine ⟨?_, ?_, ?_, ?_, ?_, ?_, ?_, ?_, ?_⟩
  · simp only [updateJobStatus, h]
  · simp only [updateJobStatus, h]
    refine (findJob_update' _ s.jobs input.job_id (applyJobStatusUpdate input now)
        (applyJobStatusUpdate_id input now) rfl).trans ?_
    show (findJob s input.job_id).map (applyJobStatusUpdate input now) = _
    rw [h]
    rfl
  · unfold applyJobStatusUpdate
    split_ifs <;> rfl
  · unfold applyJobStatusUpdate
    split_ifs <;> rfl
  · intro hp
    unfold applyJobStatusUpdate
    split_ifs <;> simp_all
  · intro hp
    unfold applyJobStatusUpdate
    split_ifs <;> simp_all
  · intro hc
    unfold applyJobStatusUpdate
    split_ifs <;> simp_all
  · intro hc
    unfold applyJobStatusUpdate
    split_ifs <;> simp_all
  · intro a hs ha hnz
    unfold applyJobStatusUpdate
    split_ifs <;> simp_all [truthyId]

/-- C3 witness: on the concrete store `cDB3`, targeting `approved` with the
nonzero approver id 2 succeeds and sets `approved_by := some 2`. -/
theorem claim3_witness :
    (updateJobStatus cIn3w cDB3 5).fst
      = Except.ok
          (applyJobStatusUpdate cIn3w 5 { mkJob 1 2 with status := JobStatus.pending_approval }) ∧
    (applyJobStatusUpdate cIn3w 5
        { mkJob 1 2 with status := JobStatus.pending_approval }).approved_by = some 2 := by
  have h := claim3_updateJobStatus_amended cDB3 cIn3w 5
    { mkJob 1 2 with status := JobStatus.pending_approval } rfl
  exact ⟨h.1, h.2.2.2.2.2.2.2.2 2 rfl rfl (by decide)⟩

/-! ## C10 — createApplication -/

/-- C10: `createApplication` raises an error exactly when the referenced job,
user or CV file does not exist or the CV file's `candidate_id` differs from
the supplied one; it never checks the referenced user's role, so for any
existing user of any role owning the referenced CV file the call succeeds
and inserts an application with status `pending`, null `ai_match_score` and
null `notes`. -/
theorem claim10_createApplication (s : DBState) (input : CreateApplicationInput)
    (now : Nat) :
    ((∃ e, (createApplication input s now).fst = Except.error e) ↔
        (findJob s input.job_id = none ∨ findUser s input.candidate_id = none ∨
         findCVFile s input.cv_file_id = none ∨
         (∃ cv, findCVFile s input.cv_file_id = some cv ∧
            cv.candidate_id ≠ input.candidate_id))) ∧
    (∀ j u cv, findJob s input.job_id = some j → findUser s input.candidate_id = some u →
        findCVFile s input.cv_file_id = some cv → cv.candidate_id = input.candidate_id →
        (createApplication input s now).fst = Except.ok (newApplication input s now) ∧
        (createApplication input s now).snd.applications
            = s.applications ++ [newApplication input s now] ∧
        (newApplication input s now).status = ApplicationStatus.pending ∧
        (newApplication input s now).ai_match_score = none ∧
        (newApplication input s now).notes = none) := by
  constructor
  · constructor
    · rintro ⟨e, he⟩
      rcases hj : findJob s input.job_id with _ | j
      · exact Or.inl rfl
      rcases hu : findUser s input.candidate_id with _ | u
      · exact Or.inr (Or.inl rfl)
      rcases hcv : findCVFile s input.cv_file_id with _ | cv
      · exact Or.inr (Or.inr (Or.inl rfl))
      by_cases hm : cv.candidate_id = input.candidate_id
      · exfalso
        simp only [createApplication, hj, hu, hcv] at he
        rw [if_neg (fun hne => hne hm)] at he
        exact Except.noConfusion he
      · exact Or.inr (Or.inr (Or.inr ⟨cv, rfl, hm⟩))
    · intro hd
      rcases hd with hj | hu | hcv | ⟨cv, hcv, hm⟩
      · exact ⟨"Job not found", by simp only [createApplication, hj]⟩
      · rcases hj : findJob s input.job_id with _ | j
        · exact ⟨"Job not found", by simp only [createApplication, hj]⟩
        · exact ⟨"Candidate not found", by simp only [createApplication, hj, hu]⟩
      · rcases hj : findJob s input.job_id with _ | j
        · exact ⟨"Job not found", by simp only [createApplication, hj]⟩
        rcases hu : findUser s input.candidate_id with _ | u
        · exact ⟨"Candidate not found", by simp only [createApplication, hj, hu]⟩
        · exact ⟨"CV file not found", by simp only [createApplication, hj, hu, hcv]⟩
      · rcases hj : findJob s input.job_id with _ | j
        · exact ⟨"Job not found", by simp only [createApplication, hj]⟩
        rcases hu : findUser s input.candidate_id with _ | u
        · exact ⟨"Candidate not found", by simp only [createApplication, hj, hu]⟩
        refine ⟨"CV file does not belong to the specified candidate", ?_⟩
        simp only [createApplication, hj, hu, hcv]
        rw [if_pos hm]
  · intro j u cv hj hu hcv hm
    refine ⟨?_, ?_, rfl, rfl, rfl⟩
    · simp only [createApplication, hj, hu, hcv]
      rw [if_neg (fun hne => hne hm)]
    · simp only [createApplication, hj, hu, hcv]
      rw [if_neg (fun hne => hne hm)]

/-- C10 witness: on `cDB10` — where CV file 2 belongs to user 4, whose role
is `requester` — the call succeeds and inserts a `pending` application with
null score and null notes. -/
theorem claim10_witness :
    (createApplication cIn10 cDB10 7).fst = Except.ok (newApplication cIn10 cDB10 7) ∧
    (createApplication cIn10 cDB10 7).snd.applications
        = cDB10.applications ++ [newApplication cIn10 cDB10 7] ∧
    (newApplication cIn10 cDB10 7).status = ApplicationStatus.pending ∧
    (newApplication cIn10 cDB10 7).ai_match_score = none ∧
    (newApplication cIn10 cDB10 7).notes = none ∧
    (mkUser 4 UserRole.requester).role = UserRole.requester := by
  have h := (claim10_createApplication cDB10 cIn10 7).2 (mkJob 1 4)
    (mkUser 4 UserRole.requester) (mkCV 2 4) rfl rfl rfl rfl
  exact ⟨h.1, h.2.1, h.2.2.1, h.2.2.2.1, h.2.2.2.2, rfl⟩

/-! ## C5 — processCVWithAI idempotence -/

theorem map_update_fresh (l : List AIParsedData) (rid : Nat) (x y : AIParsedData)
    (hrid : rid = freshId (l.map (fun p => p.id))) (hxid : x.id = rid) :
    (l ++ [x]).map (fun p => if p.id == rid then y else p) = l ++ [y] := by
  rw [List.map_append]
  congr 1
  · refine (List.map_congr_left ?_).trans (List.map_id _)
    intro p hp
    have hlt : p.id < freshId (l.map (fun q => q.id)) :=
      mem_lt_freshId (List.mem_map_of_mem _ hp)
    have hne : (p.id == rid) = false := by
      rw [hrid]
      exact beq_eq_false_iff_ne.mpr (by omega)
    simp [hne]
  · simp [hxid]

theorem processCVWithAI_insert (s : DBState) (fid now : Nat) (cv : CVFile)
    (hcv : findCVFile s fid = some cv)
    (hnil : s.ai_parsed_data.filter (fun p => p.cv_file_id == fid) = []) :
    processCVWithAI fid s now
      = (Except.ok (procCompletedRow s fid now cv),
         { s with ai_parsed_data := s.ai_parsed_data ++ [procCompletedRow s fid now cv] }) := by
  simp only [processCVWithAI, hcv, hnil, List.head?_nil]
  rw [map_update_fresh s.ai_parsed_data (freshId (s.ai_parsed_data.map (fun p => p.id)))
    (procInitialRow s fid now) (procCompletedRow s fid now cv) rfl (by simp [procInitialRow])]

/-- C5: calling `processCVWithAI` twice with the same `cv_file_id`
(referencing an existing CV file, in a store satisfying the one-row-per-file
invariant) returns a record with the same id both times, and afterwards
exactly one `ai_parsed_data` row exists for that `cv_file_id`. -/
theorem claim5_processCVWithAI_idempotent (s : DBState) (fid now1 now2 : Nat)
    (cv : CVFile) (hcv : findCVFile s fid = some cv)
    (hinv : (s.ai_parsed_data.filter (fun p => p.cv_file_id == fid)).length ≤ 1) :
    ∃ r1 r2,
      (processCVWithAI fid s now1).fst = Except.ok r1 ∧
      (processCVWithAI fid (processCVWithAI fid s now1).snd now2).fst = Except.ok r2 ∧
      r1.id = r2.id ∧
      ((processCVWithAI fid (processCVWithAI fid s now1).snd now2).snd.ai_parsed_data.filter
          (fun p => p.cv_file_id == fid)).length = 1 := by
  rcases hL : (s.ai_parsed_data.filter (fun p => p.cv_file_id == fid)).head? with _ | existing
  · have hnil : s.ai_parsed_data.filter (fun p => p.cv_file_id == fid) = [] :=
      List.head?_eq_none_iff.mp hL
    have h1 := processCVWithAI_insert s fid now1 cv hcv hnil
    have hfil : (s.ai_parsed_data ++ [procCompletedRow s fid now1 cv]).filter
        (fun p => p.cv_file_id == fid) = [procCompletedRow s fid now1 cv] := by
      rw [List.filter_append, hnil, List.nil_append]
      simp [procCompletedRow, procInitialRow]
    have hcv2 : findCVFile
        { s with ai_parsed_data := s.ai_parsed_data ++ [procCompletedRow s fid now1 cv] } fid
        = some cv := hcv
    have hh : (({ s with ai_parsed_data :=
            s.ai_parsed_data ++ [procCompletedRow s fid now1 cv] } :
          DBState).ai_parsed_data.filter (fun p => p.cv_file_id == fid)).head?
        = some (procCompletedRow s fid now1 cv) := by
      show ((s.ai_parsed_data ++ [procCompletedRow s fid now1 cv]).filter
          (fun p => p.cv_file_id == fid)).head? = _
      rw [hfil]
      rfl
    have h2 : processCVWithAI fid
        { s with ai_parsed_data := s.ai_parsed_data ++ [procCompletedRow s fid now1 cv] } now2
        = (Except.ok (procCompletedRow s fid now1 cv),
           { s with ai_parsed_data := s.ai_parsed_data ++ [procCompletedRow s fid now1 cv] }) := by
      simp only [processCVWithAI, hcv2, hh]
    refine ⟨procCompletedRow s fid now1 cv, procCompletedRow s fid now1 cv, ?_, ?_, rfl, ?_⟩
    · rw [h1]
    · rw [h1, h2]
    · rw [h1, h2]
      show ((s.ai_parsed_data ++ [procCompletedRow s fid now1 cv]).filter
          (fun p => p.cv_file_id == fid)).length = 1
      rw [hfil]
      rfl
  · have hne : s.ai_parsed_data.filter (fun p => p.cv_file_id == fid) ≠ [] := by
      intro hnil
      rw [hnil] at hL
      cases hL
    have h1 : processCVWithAI fid s now1 = (Except.ok existing, s) := by
      simp only [processCVWithAI, hcv, hL]
    have h2 : processCVWithAI fid s now2 = (Except.ok existing, s) := by
      simp only [processCVWithAI, hcv, hL]
    refine ⟨existing, existing, ?_, ?_, rfl, ?_⟩
    · rw [h1]
    · rw [h1, h2]
    · rw [h1, h2]
      have hpos : 0 < (s.ai_parsed_data.filter (fun p => p.cv_file_id == fid)).length :=
        List.length_pos.mpr hne
      show (s.ai_parsed_data.filter (fun p => p.cv_file_id == fid)).length = 1
      omega

/-- C5 witness: on the concrete store `cDB5` (CV file 1, no parsed rows), two
successive calls return rows with equal ids and leave exactly one
`ai_parsed_data` row for file 1. -/
theorem claim5_witness :
    (cDB5.ai_parsed_data.filter (fun p => p.cv_file_id == 1)).length ≤ 1 ∧
    ((processCVWithAI 1 (processCVWithAI 1 cDB5 3).snd 4).snd.ai_parsed_data.filter
        (fun p => p.cv_file_id == 1)).length = 1 := by
  obtain ⟨r1, r2, h1, h2, hid, hcount⟩ :=
    claim5_processCVWithAI_idempotent cDB5 1 3 4 (mkCV 1 3) rfl (by decide)
  exact ⟨by decide, hcount⟩

/-! ## C6 — sendEmailNotification idempotence -/

theorem findNotification_update' (s : DBState) (base : List Notification) (i : Nat)
    (f : Notification → Notification) (hf : ∀ n, (f n).id = n.id)
    (h : s.notifications = base.map (fun n => if n.id == i then f n else n)) :
    findNotification s i = ((base.filter (fun n => n.id == i)).head?).map f := by
  unfold findNotification
  rw [h, filter_map_updateById base (fun x : Notification => x.id) i f hf, head?_map']

theorem sendEmail_joined_head (s : DBState) (nid : Nat) (n : Notification) (u : User)
    (hn : findNotification s nid = some n) (hu : findUser s n.user_id = some u) :
    ((s.notifications.filter (fun m => m.id == nid)).flatMap
        (fun m => (s.users.filter (fun x => x.id == m.user_id)).map (fun x => (m, x)))).head?
      = some (n, u) := by
  have hn' : (s.notifications.filter (fun m => m.id == nid)).head? = some n := hn
  have hu' : (s.users.filter (fun x => x.id == n.user_id)).head? = some u := hu
  obtain ⟨t, ht⟩ := List.head?_eq_some_iff.mp hn'
  obtain ⟨t', ht'⟩ := List.head?_eq_some_iff.mp hu'
  rw [ht, List.flatMap_cons, ht']
  rfl

/-- C6: calling `sendEmailNotification` twice on the same existing
notification (whose user row exists, as the foreign-key invariant
guarantees) returns `true` both times; after the first call the
notification's `email_sent` is `true`, and the second call leaves the store
unchanged while still reporting success; for an unknown notification id the
call fails with the not-found error and the store is unchanged. -/
theorem claim6_sendEmailNotification_idempotent (s : DBState) (nid : Nat) :
    (findNotification s nid = none →
        sendEmailNotification nid s
          = (Except.error ("Notification with ID " ++ toString nid ++ " not found"), s)) ∧
    (∀ n u, findNotification s nid = some n → findUser s n.user_id = some u →
        ∃ s1, sendEmailNotification nid s = (Except.ok true, s1) ∧
          findNotification s1 nid = some { n with email_sent := true } ∧
          sendEmailNotification nid s1 = (Except.ok true, s1)) := by
  constructor
  · intro hnone
    have hfil : s.notifications.filter (fun m => m.id == nid) = [] :=
      List.head?_eq_none_iff.mp hnone
    simp only [sendEmailNotification, hfil, List.flatMap_nil, List.head?_nil]
  · intro n u hn hu
    have hhead := sendEmail_joined_head s nid n u hn hu
    by_cases hsent : n.email_sent
    · refine ⟨s, ?_, ?_, ?_⟩
      · simp only [sendEmailNotification, hhead, hsent, if_true]
      · rw [hn]
        rw [show ({ n with email_sent := true } : Notification) = n from by rw [← hsent]]
      · simp only [sendEmailNotification, hhead, hsent, if_true]
    · have hn' : (s.notifications.filter (fun m => m.id == nid)).head? = some n := hn
      obtain ⟨t, ht⟩ := List.head?_eq_some_iff.mp hn'
      refine ⟨{ s with notifications :=
          s.notifications.map (fun m => if m.id == nid then { m with email_sent := true } else m) },
        ?_, ?_, ?_⟩
      · simp only [sendEmailNotification, hhead, hsent, Bool.false_eq_true, if_false]
        rw [ht]
        simp
      · rw [findNotification_update' _ s.notifications nid
          (fun m => { m with email_sent := true }) (fun m => rfl) rfl]
        rw [show ((s.notifications.filter (fun m => m.id == nid)).head?) = some n from hn]
        rfl
      · have hfil1 := filter_map_updateById s.notifications (fun x : Notification => x.id) nid
          (fun m => { m with email_sent := true }) (fun m => rfl)
        have hhead2 : (((s.notifications.filter (fun m => m.id == nid)).map
              (fun m => { m with email_sent := true })).flatMap
              (fun m => (s.users.filter (fun x => x.id == m.user_id)).map
                (fun x => (m, x)))).head? = some ({ n with email_sent := true }, u) := by
          rw [ht]
          have hu' : (s.users.filter (fun x => x.id == n.user_id)).head? = some u := hu
          obtain ⟨t', ht'⟩ := List.head?_eq_some_iff.mp hu'
          rw [List.map_cons, List.flatMap_cons]
          show ((s.users.filter (fun x => x.id == n.user_id)).map
              (fun x => ({ n with email_sent := true }, x)) ++ _).head? = _
          rw [ht']
          rfl
        simp only [sendEmailNotification]
        rw [show (fun m : Notification => m.id == nid) = (fun m : Notification =>
          (fun x : Notification => x.id) m == nid) from rfl] at hfil1 ⊢
        rw [hfil1, hhead2]
        simp

/-- C6 witness: on the concrete store `cDB6` (unsent notification 6 for user
3), the first call returns `true` and sets `email_sent`, and the second call
returns `true` and leaves the store unchanged. -/
theorem claim6_witness :
    (sendEmailNotification 6 cDB6).fst = Except.ok true ∧
    findNotification (sendEmailNotification 6 cDB6).snd 6
      = some { mkNotif 6 3 with email_sent := true } ∧
    sendEmailNotification 6 (sendEmailNotification 6 cDB6).snd
      = (Except.ok true, (sendEmailNotification 6 cDB6).snd) := by
  obtain ⟨s1, h1, h2, h3⟩ :=
    (claim6_sendEmailNotification_idempotent cDB6 6).2 (mkNotif 6 3)
      (mkUser 3 UserRole.candidate) rfl rfl
  rw [h1]
  exact ⟨rfl, h2, h3⟩

/-! ## C7 — getApplicationsByJob ordering -/

theorem appLe_nn {a b : Application} (ha : a.ai_match_score = none)
    (hb : b.ai_match_score = none) :
    appLe a b = decide (b.created_at ≤ a.created_at) := by
  unfold appLe
  rw [ha, hb]

theorem appLe_ns {a b : Application} {y : Nat} (ha : a.ai_match_score = none)
    (hb : b.ai_match_score = some y) : appLe a b = false := by
  unfold appLe
  rw [ha, hb]

theorem appLe_sn {a b : Application} {x : Nat} (ha : a.ai_match_score = some x)
    (hb : b.ai_match_score = none) : appLe a b = true := by
  unfold appLe
  rw [ha, hb]

theorem appLe_ss {a b : Application} {x y : Nat} (ha : a.ai_match_score = some x)
    (hb : b.ai_match_score = some y) :
    appLe a b = if x = y then decide (b.created_at ≤ a.created_at) else decide (y < x) := by
  unfold appLe
  rw [ha, hb]

theorem appLe_total (a b : Application) : (appLe a b || appLe b a) = true := by
  rcases hA : a.ai_match_score with _ | x <;> rcases hB : b.ai_match_score with _ | y
  · rw [appLe_nn hA hB, appLe_nn hB hA]
    simp only [Bool.or_eq_true, decide_eq_true_eq]
    omega
  · rw [appLe_sn hB hA]
    simp
  · rw [appLe_sn hA hB]
    simp
  · rw [appLe_ss hA hB, appLe_ss hB hA]
    by_cases hxy : x = y
    · subst hxy
      rw [if_pos rfl, if_pos rfl]
      simp only [Bool.or_eq_true, decide_eq_true_eq]
      omega
    · rw [if_neg hxy, if_neg (Ne.symm hxy)]
      simp only [Bool.or_eq_true, decide_eq_true_eq]
      omega

theorem appLe_trans (a b c : Application) (h1 : appLe a b = true) (h2 : appLe b c = true) :
    appLe a c = true := by
  rcases hA : a.ai_match_score with _ | x <;> rcases hB : b.ai_match_score with _ | y <;>
      rcases hC : c.ai_match_score with _ | z
  · rw [appLe_nn hA hB] at h1
    rw [appLe_nn hB hC] at h2
    rw [appLe_nn hA hC]
    simp only [decide_eq_true_eq] at h1 h2 ⊢
    omega
  · rw [appLe_ns hB hC] at h2
    cases h2
  · rw [appLe_ns hA hB] at h1
    cases h1
  · rw [appLe_ns hA hB] at h1
    cases h1
  · rw [appLe_sn hA hC]
  · rw [appLe_ns hB hC] at h2
    cases h2
  · rw [appLe_sn hA hC]
  · rw [appLe_ss hA hB] at h1
    rw [appLe_ss hB hC] at h2
    rw [appLe_ss hA hC]
    split_ifs at h1 h2 ⊢ <;> simp only [decide_eq_true_eq] at h1 h2 ⊢ <;> omega

/-- C7: for every `job_id`, `getApplicationsByJob` returns exactly the
applications of that job (a permutation of the job's rows), ordered so that
every non-null `ai_match_score` precedes every null one, non-null scores
descend, and ties — including among null scores — are broken by descending
`created_at`. -/
theorem claim7_getApplicationsByJob_order (s : DBState) (jid : Nat) :
    List.Perm (getApplicationsByJob jid s) (s.applications.filter (fun a => a.job_id == jid)) ∧
    List.Pairwise (fun a b => appLe a b = true) (getApplicationsByJob jid s) := by
  constructor
  · exact List.mergeSort_perm _ _
  · exact List.sorted_mergeSort appLe_trans appLe_total
      (s.applications.filter (fun a => a.job_id == jid))

/-! ## C9 — requester dashboard averageMatchScore -/

theorem jsRound_close (q : ℚ) : |(jsRound q : ℚ) - q| ≤ 1 / 2 := by
  unfold jsRound
  rw [abs_le]
  constructor
  · have h := Int.lt_floor_add_one (q + 1 / 2)
    push_cast at h
    linarith
  · have h := Int.floor_le (q + 1 / 2)
    linarith

/-- C9: `getRequesterDashboard`'s `averageMatchScore` is 0 when no
application to the requester's jobs carries a non-null `ai_match_score`, and
otherwise differs from the mean of the non-null scores by at most 1/2 (it is
the nearest integer, half rounded up); on the concrete store `cDB9`, whose
only two applications are scored 85 and 92, it equals 89. -/
theorem claim9_requesterAverageMatchScore (s : DBState) (rid : Nat) :
    (requesterMatchScores s rid = [] → requesterAverageMatchScore s rid = 0) ∧
    (requesterMatchScores s rid ≠ [] →
        |(requesterAverageMatchScore s rid : ℚ)
            - ((requesterMatchScores s rid).sum : ℚ)
              / ((requesterMatchScores s rid).length : ℚ)| ≤ 1 / 2) ∧
    requesterMatchScores cDB9 9 = [85, 92] ∧
    requesterAverageMatchScore cDB9 9 = 89 := by
  refine ⟨?_, ?_, ?_, ?_⟩
  · intro h
    simp only [requesterAverageMatchScore, h, List.length_nil, if_pos rfl]
    exact Int.floor_eq_iff.mpr (by norm_num)
  · intro h
    have hlen : ((requesterMatchScores s rid).length = 0) = False := by
      simp only [List.length_eq_zero, eq_iff_iff, iff_false]
      exact h
    simp only [requesterAverageMatchScore, hlen, if_false]
    exact jsRound_close _
  · rfl
  · have hsc : requesterMatchScores cDB9 9 = [85, 92] := rfl
    simp only [requesterAverageMatchScore, hsc]
    norm_num
    show jsRound ((177 : ℚ) / 2) = 89
    unfold jsRound
    refine Int.floor_eq_iff.mpr (by norm_num)

/-- C9 witness: on `cDB9` the score list is nonempty and the published
average differs from the true mean 177/2 by at most 1/2. -/
theorem claim9_witness :
    requesterMatchScores cDB9 9 ≠ [] ∧
    |(requesterAverageMatchScore cDB9 9 : ℚ)
        - ((requesterMatchScores cDB9 9).sum : ℚ)
          / ((requesterMatchScores cDB9 9).length : ℚ)| ≤ 1 / 2 := by
  have hne : requesterMatchScores cDB9 9 ≠ [] := by
    rw [show requesterMatchScores cDB9 9 = [85, 92] from rfl]
    exact List.cons_ne_nil _ _
  exact ⟨hne, (claim9_requesterAverageMatchScore cDB9 9).2.1 hne⟩

/-! ## C8 — generateWeeklyReport window -/

/-- C8 counterexample: the claim says the report window is half-open
`[week_start, week_end)`, so an application created exactly at `week_end`
is not counted; but the handler filters with `lte(created_at, weekEnd)`,
so on `cDB8` — one application to requester 1's job with
`created_at = week_end = 700` — `totalApplications` is 1 while the
half-open count of the claim is 0. -/
theorem claim8_counterexample :
    (generateWeeklyReport 1 100 700 cDB8 999).fst.report_data.totalApplications = 1 ∧
    specTotalApplicationsHalfOpen cDB8 1 100 700 = 0 ∧
    ({ mkApp 5 1 3 2 with created_at := 700 } : Application).created_at = 700 := by
  refine ⟨rfl, rfl, rfl⟩

theorem filter_job_count (l : List Job) (k : Nat) (q : Job → Bool)
    (h : (l.map (fun j => j.id)).Nodup) :
    (l.filter (fun j => q j && j.id == k)).length
      = if l.any (fun j => q j && j.id == k) then 1 else 0 := by
  induction l with
  | nil => rfl
  | cons j t ih =>
    rw [List.map_cons, List.nodup_cons] at h
    rw [List.filter_cons, List.any_cons]
    by_cases hj : (q j && j.id == k) = true
    · rw [hj]
      have htail : t.filter (fun j' => q j' && j'.id == k) = [] := by
        refine List.filter_eq_nil_iff.mpr ?_
        intro j' hj' hp
        have hk : j.id = k := eq_of_beq ((Bool.and_eq_true _ _).mp hj).2
        have hk' : j'.id = k := eq_of_beq ((Bool.and_eq_true _ _).mp hp).2
        apply h.1
        have hm : j'.id ∈ t.map (fun j => j.id) := List.mem_map_of_mem _ hj'
        rwa [hk', ← hk] at hm
      simp [htail]
    · have hj' : (q j && j.id == k) = false := by
        revert hj
        cases (q j && j.id == k) <;> simp
      rw [hj']
      simp only [Bool.false_eq_true, if_false, Bool.false_or]
      exact ih h.2

theorem pairs_filter_count (apps : List Application) (jobs : List Job) (rid ws we : Nat)
    (h : (jobs.map (fun j => j.id)).Nodup) :
    ((apps.flatMap (fun a =>
        (jobs.filter (fun j => j.id == a.job_id)).map (fun j => (a, j)))).filter
        (inReportRange rid ws we)).length
      = (apps.filter (fun a =>
          jobs.any (fun j => j.created_by == rid && j.id == a.job_id) &&
          decide (ws ≤ a.created_at) && decide (a.created_at ≤ we))).length := by
  induction apps with
  | nil => rfl
  | cons a t ih =>
    rw [List.flatMap_cons, List.filter_append, List.length_append, ih, List.filter_cons]
    have hmap : ((jobs.filter (fun j => j.id == a.job_id)).map (fun j => (a, j))).filter
          (inReportRange rid ws we)
        = ((jobs.filter (fun j => j.id == a.job_id)).filter
            (fun j => inReportRange rid ws we (a, j))).map (fun j => (a, j)) :=
      List.filter_map (fun j => (a, j)) (jobs.filter (fun j => j.id == a.job_id))
    rw [hmap, List.length_map, List.filter_filter]
    by_cases h1 : ws ≤ a.created_at
    · by_cases h2 : a.created_at ≤ we
      · have hpr : (fun j => inReportRange rid ws we (a, j) && (j.id == a.job_id))
            = (fun j => (j.created_by == rid) && (j.id == a.job_id)) := by
          funext j
          unfold inReportRange
          rw [decide_eq_true h1, decide_eq_true h2]
          simp only [Bool.and_true]
        rw [hpr, filter_job_count jobs a.job_id (fun j => j.created_by == rid) h]
        rw [decide_eq_true h1, decide_eq_true h2]
        simp only [Bool.and_true]
        by_cases hany :
            jobs.any (fun j => (j.created_by == rid) && (j.id == a.job_id)) = true
        · rw [hany]
          simp only [if_true, List.length_cons]
          omega
        · have hany' :
              jobs.any (fun j => (j.created_by == rid) && (j.id == a.job_id)) = false := by
            revert hany
            cases jobs.any (fun j => (j.created_by == rid) && (j.id == a.job_id)) <;> simp
          rw [hany']
          simp only [Bool.false_eq_true, if_false]
          omega
      · have hzero : (jobs.filter (fun j =>
            inReportRange rid ws we (a, j) && (j.id == a.job_id))).length = 0 := by
          rw [List.filter_eq_nil_iff.mpr ?_]
          · rfl
          · intro j hj hp
            have hin := ((Bool.and_eq_true _ _).mp hp).1
            unfold inReportRange at hin
            simp only [Bool.and_eq_true, decide_eq_true_eq] at hin
            exact h2 hin.2
        rw [hzero]
        rw [decide_eq_false h2, Bool.and_false]
        simp
    · have hzero : (jobs.filter (fun j =>
          inReportRange rid ws we (a, j) && (j.id == a.job_id))).length = 0 := by
        rw [List.filter_eq_nil_iff.mpr ?_]
        · rfl
        · intro j hj hp
          have hin := ((Bool.and_eq_true _ _).mp hp).1
          unfold inReportRange at hin
          simp only [Bool.and_eq_true, decide_eq_true_eq] at hin
          exact h1 hin.1.2
      rw [hzero]
      rw [decide_eq_false h1, Bool.and_false, Bool.false_and]
      simp

/-- C8 (amended): `generateWeeklyReport` aggregates over the closed window
`[week_start, week_end]`: when job ids are unique (the primary-key
invariant), its `totalApplications` metric counts an application to one of
the requester's jobs iff `week_start ≤ created_at ≤ week_end` — in
particular an application whose `created_at` equals `week_end` exactly IS
counted. -/
theorem claim8_generateWeeklyReport_amended (s : DBState) (rid ws we now : Nat)
    (h : (s.jobs.map (fun j => j.id)).Nodup) :
    (generateWeeklyReport rid ws we s now).fst.report_data.totalApplications
      = (s.applications.filter (fun a =>
          s.jobs.any (fun j => j.created_by == rid && j.id == a.job_id) &&
          decide (ws ≤ a.created_at) && decide (a.created_at ≤ we))).length := by
  show (weeklyReportData rid ws we s).totalApplications = _
  simp only [weeklyReportData, appJobPairs]
  exact pairs_filter_count s.applications s.jobs rid ws we h

/-- C8 witness: on `cDB8` job ids are unique and the metric equals the
closed-window count — which includes the boundary application, giving 1. -/
theorem claim8_witness :
    (cDB8.jobs.map (fun j => j.id)).Nodup ∧
    (generateWeeklyReport 1 100 700 cDB8 999).fst.report_data.totalApplications
      = (cDB8.applications.filter (fun a =>
          cDB8.jobs.any (fun j => j.created_by == 1 && j.id == a.job_id) &&
          decide (100 ≤ a.created_at) && decide (a.created_at ≤ 700))).length ∧
    (cDB8.applications.filter (fun a =>
        cDB8.jobs.any (fun j => j.created_by == 1 && j.id == a.job_id) &&
        decide (100 ≤ a.created_at) && decide (a.created_at ≤ 700))).length = 1 := by
  refine ⟨?_, claim8_generateWeeklyReport_amended cDB8 1 100 700 999 ?_, rfl⟩ <;> decide

/-! ## C1 — scheduleInterview -/

/-- C1: for every call to `scheduleInterview` whose `application_id` and
`interviewer_id` reference existing rows, after the call exactly one new
interview row exists, with status `scheduled` and the supplied fields; the
parent application's status equals `interview_scheduled` with `updated_at`
bumped to the call time; exactly two new notification rows exist of type
`interview_invitation` with `email_sent = false` — one to the application's
candidate titled "Interview Scheduled" and one to the interviewer titled
"Interview Assignment"; all other tables are untouched.  If either
referenced id does not exist, a not-found error naming it is raised and the
store is returned unchanged. -/
theorem claim1_scheduleInterview (s : DBState) (input : ScheduleInterviewInput)
    (now : Nat) :
    (findApplication s input.application_id = none →
        scheduleInterview input s now
          = (Except.error
              ("Application with ID " ++ toString input.application_id ++ " not found"), s)) ∧
    (∀ app, findApplication s input.application_id = some app →
        findUser s input.interviewer_id = none →
        scheduleInterview input s now
          = (Except.error
              ("Interviewer with ID " ++ toString input.interviewer_id ++ " not found"), s)) ∧
    (∀ app u, findApplication s input.application_id = some app →
        findUser s input.interviewer_id = some u →
        (scheduleInterview input s now).fst = Except.ok (schedInterviewRow input s now) ∧
        (scheduleInterview input s now).snd.interviews
            = s.interviews ++ [schedInterviewRow input s now] ∧
        (schedInterviewRow input s now).status = InterviewStatus.scheduled ∧
        (schedInterviewRow input s now).application_id = input.application_id ∧
        (schedInterviewRow input s now).interviewer_id = input.interviewer_id ∧
        (schedInterviewRow input s now).scheduled_at = input.scheduled_at ∧
        (schedInterviewRow input s now).duration_minutes = input.duration_minutes ∧
        (schedInterviewRow input s now).location = input.location ∧
        (schedInterviewRow input s now).meeting_link = input.meeting_link ∧
        findApplication (scheduleInterview input s now).snd input.application_id
            = some { app with
                status := ApplicationStatus.interview_scheduled, updated_at := now } ∧
        (scheduleInterview input s now).snd.notifications
            = s.notifications ++ [schedCandNotif s now app, schedIntNotif input s now app] ∧
        (schedCandNotif s now app).user_id = app.candidate_id ∧
        (schedCandNotif s now app).type = NotificationType.interview_invitation ∧
        (schedCandNotif s now app).title = "Interview Scheduled" ∧
        (schedCandNotif s now app).email_sent = false ∧
        (schedIntNotif input s now app).user_id = input.interviewer_id ∧
        (schedIntNotif input s now app).type = NotificationType.interview_invitation ∧
        (schedIntNotif input s now app).title = "Interview Assignment" ∧
        (schedIntNotif input s now app).email_sent = false ∧
        (scheduleInterview input s now).snd.users = s.users ∧
        (scheduleInterview input s now).snd.jobs = s.jobs ∧
        (scheduleInterview input s now).snd.cv_files = s.cv_files ∧
        (scheduleInterview input s now).snd.ai_parsed_data = s.ai_parsed_data ∧
        (scheduleInterview input s now).snd.reports = s.reports) := by
  refine ⟨?_, ?_, ?_⟩
  · intro h
    simp only [scheduleInterview, h]
  · intro app happ hu
    simp only [scheduleInterview, happ, hu]
  · intro app u happ hu
    refine ⟨?_, ?_, rfl, rfl, rfl, rfl, rfl, rfl, rfl, ?_, ?_, rfl, rfl, rfl, rfl, rfl,
      rfl, rfl, rfl, ?_, ?_, ?_, ?_, ?_⟩
    · simp only [scheduleInterview, happ, hu]
    · simp only [scheduleInterview, happ, hu]
    · simp only [scheduleInterview, happ, hu]
      refine (findApplication_update' _ s.applications input.application_id
        (fun a => { a with
            status := ApplicationStatus.interview_scheduled, updated_at := now })
        (fun a => rfl) rfl).trans ?_
      show (findApplication s input.application_id).map _ = _
      rw [happ]
      rfl
    · simp only [scheduleInterview, happ, hu]
      rw [List.append_assoc]
      rfl
    · simp only [scheduleInterview, happ, hu]
    · simp only [scheduleInterview, happ, hu]
    · simp only [scheduleInterview, happ, hu]
    · simp only [scheduleInterview, happ, hu]
    · simp only [scheduleInterview, happ, hu]

/-- C1 witness: on the concrete store `cDB1` (application 10 by candidate 3,
interviewer 4), the call appends exactly one interview and exactly the two
invitation notifications, and flips application 10 to `interview_scheduled`. -/
theorem claim1_witness :
    (scheduleInterview cIn1 cDB1 9).fst = Except.ok (schedInterviewRow cIn1 cDB1 9) ∧
    (scheduleInterview cIn1 cDB1 9).snd.interviews
        = cDB1.interviews ++ [schedInterviewRow cIn1 cDB1 9] ∧
    findApplication (scheduleInterview cIn1 cDB1 9).snd 10
        = some { mkApp 10 1 3 2 with
            status := ApplicationStatus.interview_scheduled, updated_at := 9 } ∧
    (scheduleInterview cIn1 cDB1 9).snd.notifications
        = cDB1.notifications
            ++ [schedCandNotif cDB1 9 (mkApp 10 1 3 2),
                schedIntNotif cIn1 cDB1 9 (mkApp 10 1 3 2)] ∧
    (schedCandNotif cDB1 9 (mkApp 10 1 3 2)).title = "Interview Scheduled" ∧
    (schedIntNotif cIn1 cDB1 9 (mkApp 10 1 3 2)).title = "Interview Assignment" := by
  have h := (claim1_scheduleInterview cDB1 cIn1 9).2.2 (mkApp 10 1 3 2)
    (mkUser 4 UserRole.admin) rfl rfl
  exact ⟨h.1, h.2.1, h.2.2.2.2.2.2.2.2.2.1, h.2.2.2.2.2.2.2.2.2.2.1, rfl, rfl⟩

end TalentAcq
